import Mathlib

/-!
Verification development for the `sagemakerFeatures` repository.

The repository is a single Jupyter notebook (`src/sagemaker.ipynb`) whose code
cells form a straight-line Python script driving a cloud ML SDK:

```
sagemaker_session = sagemaker.Session()
role = get_execution_role()
gluon.data.vision.MNIST('./data/train', train=True)
gluon.data.vision.MNIST('./data/test', train=False)
inputs = sagemaker_session.upload_data(path='data', key_prefix='data/DEMO-mnist')
model = MXNet("entry.py", role=role, train_instance_count=1,
              train_instance_type="ml.c4.xlarge",
              hyperparameters={'batch_size': 100, 'epochs': 5,
                               'learning_rate': 0.1, 'momentum': 0.9,
                               'log_interval': 100})
model.fit(inputs)
model.deploy(initial_instance_count=1, instance_type='ml.m4.xlarge')
```

We embed this shallowly: a small statement language (assignments of SDK-call
results, sequencing, and — so that the absence of control flow in the notebook
is a meaningful statement — conditionals, loops and try/except), an
interpreter parameterised by an oracle giving each successive SDK call's
outcome (a returned value or a raised exception), and the notebook itself as a
concrete program.  The interpreter records the trace of SDK calls actually
made, with their fully evaluated argument values, and propagates a raised
exception unchanged, aborting the rest of the program (there being no handler
on the notebook's path).
-/

/-- Python values as they occur in the notebook: numeric scalars, strings,
booleans, flat or nested dict/list structure, opaque SDK handles, and None.
Python float literals (0.1, 0.9) are modelled as rationals; no arithmetic is
ever performed on them, they are passed through as configuration. -/
inductive PyVal where
  | int (n : Int)
  | real (q : Rat)
  | str (s : String)
  | bool (b : Bool)
  | dict (entries : List (String × PyVal))
  | pylist (elems : List PyVal)
  | handle (h : Nat)
  | pynone

/-- Expressions appearing as arguments of the notebook's calls: literals and
variable references. -/
inductive Expr where
  | lit (v : PyVal)
  | var (x : String)

/-- The SDK / dataset-loader call forms occurring in the notebook, with their
arguments as expressions, mirroring the source's argument order.  Method calls
carry their receiver as the first expression. -/
inductive CallExpr where
  | sessionCtor
  | getExecutionRole
  | mnistFetch (path : Expr) (train : Expr)
  | uploadData (session : Expr) (path : Expr) (keyPref : Expr)
  | mxnetCtor (entryPoint : Expr) (role : Expr) (trainInstanceCount : Expr)
      (trainInstanceType : Expr) (hyperparameters : Expr)
  | fit (estimator : Expr) (inputs : Expr)
  | deploy (estimator : Expr) (initialInstanceCount : Expr) (instanceType : Expr)

/-- Statements of the embedded Python fragment.  The notebook only uses
`assign`, `exprStmt` and `seq`; `ifStmt`, `whileStmt` and `tryExcept` are in
the language so that "the notebook contains no branch, no loop and no
exception handler" is a contentful statement about the program below. -/
inductive Stmt where
  | skip
  | assign (x : String) (c : CallExpr)
  | exprStmt (c : CallExpr)
  | seq (s1 s2 : Stmt)
  | ifStmt (cond : Expr) (thn els : Stmt)
  | whileStmt (cond : Expr) (body : Stmt)
  | tryExcept (body handler : Stmt)

/-- An SDK call event as recorded in the execution trace: the call form with
its argument values fully evaluated. -/
inductive Event where
  | sessionCtor
  | getExecutionRole
  | mnistFetch (path : PyVal) (train : PyVal)
  | uploadData (session : PyVal) (path : PyVal) (keyPref : PyVal)
  | mxnetCtor (entryPoint : PyVal) (role : PyVal) (trainInstanceCount : PyVal)
      (trainInstanceType : PyVal) (hyperparameters : PyVal)
  | fit (estimator : PyVal) (inputs : PyVal)
  | deploy (estimator : PyVal) (initialInstanceCount : PyVal) (instanceType : PyVal)

/-- Outcome of one SDK call, decided by the environment (network, cloud
platform): either a returned value or a raised exception, identified by an
opaque code. -/
inductive Outcome where
  | ok (v : PyVal)
  | raise (e : Nat)

/-- The environment model: the outcome of the n-th SDK call made in the run. -/
def Oracle : Type := Nat → Outcome

/-- Ways a run can stop abnormally: an SDK exception propagating (carrying the
same exception code the SDK raised), a Python NameError for an unbound
variable, or loop-fuel exhaustion (never hit by the loop-free notebook). -/
inductive Fail where
  | raised (e : Nat)
  | nameError (x : String)
  | gasOut

/-- Interpreter state: the Python global environment, the number of SDK calls
made so far, and the trace of call events in order. -/
structure St where
  env : List (String × PyVal)
  calls : Nat
  trace : List Event

def initSt : St := ⟨[], 0, []⟩

def lookupVar : List (String × PyVal) → String → Option PyVal
  | [], _ => Option.none
  | (y, v) :: rest, x => if y = x then some v else lookupVar rest x

def evalExpr (env : List (String × PyVal)) : Expr → Except String PyVal
  | .lit v => .ok v
  | .var x =>
      match lookupVar env x with
      | some v => .ok v
      | Option.none => .error x

/-- Sequencing of argument evaluation: an unbound name aborts the call before
it is made, as in Python. -/
def bindE (a : Except String PyVal) (f : PyVal → Except String Event) :
    Except String Event :=
  match a with
  | .error x => .error x
  | .ok v => f v

/-- Evaluate a call's receiver/arguments (left to right, as Python does before
the call itself happens) into the event that the call will record. -/
def mkEvent (env : List (String × PyVal)) : CallExpr → Except String Event
  | .sessionCtor => .ok .sessionCtor
  | .getExecutionRole => .ok .getExecutionRole
  | .mnistFetch p t =>
      bindE (evalExpr env p) fun pv =>
      bindE (evalExpr env t) fun tv =>
      .ok (.mnistFetch pv tv)
  | .uploadData s p k =>
      bindE (evalExpr env s) fun sv =>
      bindE (evalExpr env p) fun pv =>
      bindE (evalExpr env k) fun kv =>
      .ok (.uploadData sv pv kv)
  | .mxnetCtor ep r c t h =>
      bindE (evalExpr env ep) fun epv =>
      bindE (evalExpr env r) fun rv =>
      bindE (evalExpr env c) fun cv =>
      bindE (evalExpr env t) fun tv =>
      bindE (evalExpr env h) fun hv =>
      .ok (.mxnetCtor epv rv cv tv hv)
  | .fit est inp =>
      bindE (evalExpr env est) fun ev =>
      bindE (evalExpr env inp) fun iv =>
      .ok (.fit ev iv)
  | .deploy est n t =>
      bindE (evalExpr env est) fun ev =>
      bindE (evalExpr env n) fun nv =>
      bindE (evalExpr env t) fun tv =>
      .ok (.deploy ev nv tv)

/-- Make one SDK call: evaluate the arguments, record the event, and consult
the oracle for the call's outcome.  A raising call is still recorded (the call
was made) and yields the SDK's exception unchanged. -/
def execCall (o : Oracle) (st : St) (c : CallExpr) : St × (PyVal ⊕ Fail) :=
  match mkEvent st.env c with
  | .error x => (st, .inr (.nameError x))
  | .ok ev =>
      match o st.calls with
      | .ok v =>
          ({ st with calls := st.calls + 1, trace := st.trace ++ [ev] }, .inl v)
      | .raise e =>
          ({ st with calls := st.calls + 1, trace := st.trace ++ [ev] }, .inr (.raised e))

/-- Python truthiness, for the (unused by the notebook) conditional forms. -/
def truthy : PyVal → Bool
  | .int n => n != 0
  | .real q => q != 0
  | .str s => s != ""
  | .bool b => b
  | .dict l => !l.isEmpty
  | .pylist l => !l.isEmpty
  | .handle _ => true
  | .pynone => false

/-- Bounded iteration of a loop body: evaluate the condition, run `step`
while it holds, giving up (`gasOut`) when `gas` runs out.  Structural in
`gas`, so that the interpreter evaluates definitionally. -/
def execLoop (c : Expr) (step : St → St × Option Fail) : Nat → St → St × Option Fail
  | 0, st => (st, some .gasOut)
  | gas + 1, st =>
      match evalExpr st.env c with
      | .error x => (st, some (.nameError x))
      | .ok v =>
          if truthy v then
            match step st with
            | (st2, Option.none) => execLoop c step gas st2
            | (st2, some f) => (st2, some f)
          else (st, Option.none)

/-- The interpreter, structural in the statement; `gas` bounds loop
iterations only.  Failures abort the remainder of the program, except that
`tryExcept` catches a propagating SDK exception in its body. -/
def exec (o : Oracle) (gas : Nat) : Stmt → St → St × Option Fail
  | .skip, st => (st, Option.none)
  | .assign x c, st =>
      match execCall o st c with
      | (st2, .inl v) => ({ st2 with env := (x, v) :: st2.env }, Option.none)
      | (st2, .inr f) => (st2, some f)
  | .exprStmt c, st =>
      match execCall o st c with
      | (st2, .inl _) => (st2, Option.none)
      | (st2, .inr f) => (st2, some f)
  | .seq s1 s2, st =>
      match exec o gas s1 st with
      | (st2, Option.none) => exec o gas s2 st2
      | (st2, some f) => (st2, some f)
  | .ifStmt c s1 s2, st =>
      match evalExpr st.env c with
      | .error x => (st, some (.nameError x))
      | .ok v => if truthy v then exec o gas s1 st else exec o gas s2 st
  | .tryExcept body handler, st =>
      match exec o gas body st with
      | (st2, some (.raised _)) => exec o gas handler st2
      | (st2, some (.nameError x)) => (st2, some (.nameError x))
      | (st2, some .gasOut) => (st2, some .gasOut)
      | (st2, Option.none) => (st2, Option.none)
  | .whileStmt c body, st => execLoop c (exec o gas body) gas st

/-- The hyperparameters dict literal passed to the `MXNet` estimator
constructor, exactly as in the notebook source. -/
def hyperparametersLit : List (String × PyVal) :=
  [("batch_size", .int 100),
   ("epochs", .int 5),
   ("learning_rate", .real (0.1 : Rat)),
   ("momentum", .real (0.9 : Rat)),
   ("log_interval", .int 100)]

/-- The notebook's code cells, in order, as one straight-line program. -/
def notebook : Stmt :=
  .seq (.assign "sagemaker_session" .sessionCtor)
  (.seq (.assign "role" .getExecutionRole)
  (.seq (.exprStmt (.mnistFetch (.lit (.str "./data/train")) (.lit (.bool true))))
  (.seq (.exprStmt (.mnistFetch (.lit (.str "./data/test")) (.lit (.bool false))))
  (.seq (.assign "inputs"
          (.uploadData (.var "sagemaker_session") (.lit (.str "data"))
            (.lit (.str "data/DEMO-mnist"))))
  (.seq (.assign "model"
          (.mxnetCtor (.lit (.str "entry.py")) (.var "role") (.lit (.int 1))
            (.lit (.str "ml.c4.xlarge")) (.lit (.dict hyperparametersLit))))
  (.seq (.exprStmt (.fit (.var "model") (.var "inputs")))
        (.exprStmt (.deploy (.var "model") (.lit (.int 1))
          (.lit (.str "ml.m4.xlarge"))))))))))

/-- A full run of the notebook under a given oracle (gas 1: the notebook has
no loop, so any positive gas gives the same result). -/
def run (o : Oracle) : St × Option Fail := exec o 1 notebook initSt

/-- The value the n-th SDK call returned, when it returned one. -/
def okVal (o : Oracle) (i : Nat) : PyVal :=
  match o i with
  | .ok v => v
  | .raise _ => .pynone

/-- The trace of a run in which every SDK call succeeds; a run that stops at a
raising call produces a prefix of this list (see `run_master`). -/
def fullTraceOf (o : Oracle) : List Event :=
  [.sessionCtor,
   .getExecutionRole,
   .mnistFetch (.str "./data/train") (.bool true),
   .mnistFetch (.str "./data/test") (.bool false),
   .uploadData (okVal o 0) (.str "data") (.str "data/DEMO-mnist"),
   .mxnetCtor (.str "entry.py") (okVal o 1) (.int 1) (.str "ml.c4.xlarge")
     (.dict hyperparametersLit),
   .fit (okVal o 5) (okVal o 4),
   .deploy (okVal o 5) (.int 1) (.str "ml.m4.xlarge")]

/-- An environment in which every SDK call succeeds, returning a distinct
opaque handle. -/
def okOracle : Oracle := fun n => .ok (.handle n)

/-- An environment in which the third SDK call (the first dataset fetch)
raises exception 7 and every other call would succeed. -/
def raiseAt2 : Oracle := fun n => if n = 2 then .raise 7 else .ok (.handle n)

/-- Master characterization of a run: either every one of the 8 SDK calls
succeeds and the trace is `fullTraceOf o` with a normal result, or some call
`j < 8` is the first to raise, the run makes exactly the calls up to and
including `j` (the trace is the corresponding prefix of `fullTraceOf o`), and
the SDK's exception propagates unchanged as the run's result. -/
theorem run_master (o : Oracle) :
    ((∀ i, i < 8 → ∃ v, o i = .ok v) ∧
      ((run o).1.trace = fullTraceOf o ∧ (run o).1.calls = 8 ∧
        (run o).2 = Option.none))
  ∨ (∃ j e, j < 8 ∧ o j = .raise e ∧ (∀ i, i < j → ∃ v, o i = .ok v) ∧
      ((run o).1.trace = (fullTraceOf o).take (j + 1) ∧
        (run o).1.calls = j + 1 ∧ (run o).2 = some (.raised e))) := by
  rcases h0 : o 0 with ⟨v0⟩ | ⟨e0⟩
  case raise =>
    right
    refine ⟨0, e0, by norm_num, h0, fun i hi => absurd hi (Nat.not_lt_zero i), ?_⟩
    simp [run, notebook, exec, execCall, mkEvent, bindE, evalExpr, lookupVar, initSt,
      fullTraceOf, okVal, h0]
  rcases h1 : o 1 with ⟨v1⟩ | ⟨e1⟩
  case raise =>
    right
    refine ⟨1, e1, by norm_num, h1, ?_, ?_⟩
    · intro i hi; interval_cases i; exact ⟨v0, h0⟩
    · simp [run, notebook, exec, execCall, mkEvent, bindE, evalExpr, lookupVar, initSt,
        fullTraceOf, okVal, h0, h1]
  rcases h2 : o 2 with ⟨v2⟩ | ⟨e2⟩
  case raise =>
    right
    refine ⟨2, e2, by norm_num, h2, ?_, ?_⟩
    · intro i hi; interval_cases i
      exacts [⟨v0, h0⟩, ⟨v1, h1⟩]
    · simp [run, notebook, exec, execCall, mkEvent, bindE, evalExpr, lookupVar, initSt,
        fullTraceOf, okVal, h0, h1, h2]
  rcases h3 : o 3 with ⟨v3⟩ | ⟨e3⟩
  case raise =>
    right
    refine ⟨3, e3, by norm_num, h3, ?_, ?_⟩
    · intro i hi; interval_cases i
      exacts [⟨v0, h0⟩, ⟨v1, h1⟩, ⟨v2, h2⟩]
    · simp [run, notebook, exec, execCall, mkEvent, bindE, evalExpr, lookupVar, initSt,
        fullTraceOf, okVal, h0, h1, h2, h3]
  rcases h4 : o 4 with ⟨v4⟩ | ⟨e4⟩
  case raise =>
    right
    refine ⟨4, e4, by norm_num, h4, ?_, ?_⟩
    · intro i hi; interval_cases i
      exacts [⟨v0, h0⟩, ⟨v1, h1⟩, ⟨v2, h2⟩, ⟨v3, h3⟩]
    · simp [run, notebook, exec, execCall, mkEvent, bindE, evalExpr, lookupVar, initSt,
        fullTraceOf, okVal, h0, h1, h2, h3, h4]
  rcases h5 : o 5 with ⟨v5⟩ | ⟨e5⟩
  case raise =>
    right
    refine ⟨5, e5, by norm_num, h5, ?_, ?_⟩
    · intro i hi; interval_cases i
      exacts [⟨v0, h0⟩, ⟨v1, h1⟩, ⟨v2, h2⟩, ⟨v3, h3⟩, ⟨v4, h4⟩]
    · simp [run, notebook, exec, execCall, mkEvent, bindE, evalExpr, lookupVar, initSt,
        fullTraceOf, okVal, h0, h1, h2, h3, h4, h5]
  rcases h6 : o 6 with ⟨v6⟩ | ⟨e6⟩
  case raise =>
    right
    refine ⟨6, e6, by norm_num, h6, ?_, ?_⟩
    · intro i hi; interval_cases i
      exacts [⟨v0, h0⟩, ⟨v1, h1⟩, ⟨v2, h2⟩, ⟨v3, h3⟩, ⟨v4, h4⟩, ⟨v5, h5⟩]
    · simp [run, notebook, exec, execCall, mkEvent, bindE, evalExpr, lookupVar, initSt,
        fullTraceOf, okVal, h0, h1, h2, h3, h4, h5, h6]
  rcases h7 : o 7 with ⟨v7⟩ | ⟨e7⟩
  case raise =>
    right
    refine ⟨7, e7, by norm_num, h7, ?_, ?_⟩
    · intro i hi; interval_cases i
      exacts [⟨v0, h0⟩, ⟨v1, h1⟩, ⟨v2, h2⟩, ⟨v3, h3⟩, ⟨v4, h4⟩, ⟨v5, h5⟩, ⟨v6, h6⟩]
    · simp [run, notebook, exec, execCall, mkEvent, bindE, evalExpr, lookupVar, initSt,
        fullTraceOf, okVal, h0, h1, h2, h3, h4, h5, h6, h7]
  left
  refine ⟨?_, ?_⟩
  · intro i hi; interval_cases i
    exacts [⟨v0, h0⟩, ⟨v1, h1⟩, ⟨v2, h2⟩, ⟨v3, h3⟩, ⟨v4, h4⟩, ⟨v5, h5⟩,
      ⟨v6, h6⟩, ⟨v7, h7⟩]
  · simp [run, notebook, exec, execCall, mkEvent, bindE, evalExpr, lookupVar, initSt,
      fullTraceOf, okVal, h0, h1, h2, h3, h4, h5, h6, h7]

/-- Every event in any run's trace is one of the eight events of
`fullTraceOf`. -/
theorem trace_mem_full (o : Oracle) (ev : Event) (hev : ev ∈ (run o).1.trace) :
    ev ∈ fullTraceOf o := by
  rcases run_master o with ⟨-, ht, -, -⟩ | ⟨j, e, -, -, -, ht, -, -⟩ <;> rw [ht] at hev
  · exact hev
  · exact (List.take_sublist _ _).subset hev

/-- The step kinds of the pipeline, for stating the order of operations. -/
inductive EKind where
  | sessionK
  | roleK
  | fetchK
  | uploadK
  | ctorK
  | fitK
  | deployK
deriving DecidableEq

def ekind : Event → EKind
  | .sessionCtor => .sessionK
  | .getExecutionRole => .roleK
  | .mnistFetch _ _ => .fetchK
  | .uploadData _ _ _ => .uploadK
  | .mxnetCtor _ _ _ _ _ => .ctorK
  | .fit _ _ => .fitK
  | .deploy _ _ _ => .deployK

/-- The spec's pipeline order: session/credentials, dataset fetch (two splits),
upload, descriptor construction, submission, deployment. -/
def stepOrderFull : List EKind :=
  [.sessionK, .roleK, .fetchK, .fetchK, .uploadK, .ctorK, .fitK, .deployK]

/-- `true` iff the statement contains no conditional and no loop. -/
def branchFree : Stmt → Bool
  | .skip => true
  | .assign _ _ => true
  | .exprStmt _ => true
  | .seq s1 s2 => branchFree s1 && branchFree s2
  | .ifStmt _ _ _ => false
  | .whileStmt _ _ => false
  | .tryExcept b h => branchFree b && branchFree h

/-- `true` iff the statement contains no try/except handler. -/
def handlerFree : Stmt → Bool
  | .skip => true
  | .assign _ _ => true
  | .exprStmt _ => true
  | .seq s1 s2 => handlerFree s1 && handlerFree s2
  | .ifStmt _ s1 s2 => handlerFree s1 && handlerFree s2
  | .whileStmt _ b => handlerFree b
  | .tryExcept _ _ => false

/-- Scalar values in the spec's sense: integers and floating-point numbers. -/
def isScalar : PyVal → Bool
  | .int _ => true
  | .real _ => true
  | _ => false

/-- The eight possible events of a run are pairwise distinct, whatever values
the SDK returned: the two dataset fetches differ in their literal arguments
and every other pair differs in call form. -/
theorem fullTraceOf_nodup (o : Oracle) : (fullTraceOf o).Nodup := by
  simp [fullTraceOf, List.nodup_cons, List.mem_cons]

/-- The trace of the run in which every call returns a fresh handle. -/
theorem okOracle_trace :
    (run okOracle).1.trace =
      [.sessionCtor,
       .getExecutionRole,
       .mnistFetch (.str "./data/train") (.bool true),
       .mnistFetch (.str "./data/test") (.bool false),
       .uploadData (.handle 0) (.str "data") (.str "data/DEMO-mnist"),
       .mxnetCtor (.str "entry.py") (.handle 1) (.int 1) (.str "ml.c4.xlarge")
         (.dict hyperparametersLit),
       .fit (.handle 5) (.handle 4),
       .deploy (.handle 5) (.int 1) (.str "ml.m4.xlarge")] := rfl

/-- Claim C1: the hyperparameter mapping passed to the training-job descriptor
has exactly the keys batch_size, epochs, learning_rate, momentum and
log_interval — all five present and no other key — and in every run the
estimator-constructor call receives exactly this mapping. -/
theorem C1_hyperparameter_keys :
    hyperparametersLit.map Prod.fst =
      ["batch_size", "epochs", "learning_rate", "momentum", "log_interval"] ∧
    ∀ (o : Oracle) (ep r c t h : PyVal),
      Event.mxnetCtor ep r c t h ∈ (run o).1.trace →
      h = .dict hyperparametersLit := by
  refine ⟨rfl, ?_⟩
  intro o ep r c t h hmem
  have hfull := trace_mem_full o _ hmem
  simp only [fullTraceOf, List.mem_cons, List.not_mem_nil, or_false] at hfull
  rcases hfull with h1 | h1 | h1 | h1 | h1 | h1 | h1 | h1 <;> simp_all

theorem C1_witness : PyVal.dict hyperparametersLit = PyVal.dict hyperparametersLit :=
  C1_hyperparameter_keys.2 okOracle (.str "entry.py") (.handle 1) (.int 1)
    (.str "ml.c4.xlarge") (.dict hyperparametersLit)
    (by rw [okOracle_trace]; simp)

/-- Claim C2: in every run the SDK operations occur in exactly the pipeline
order — session construction, execution-role acquisition, the two dataset
fetches, the upload, the training-job descriptor construction, fit, deploy —
each run's trace being a prefix of that full order, and a fully successful run
realising all of it. -/
theorem C2_sdk_call_order :
    (∀ o : Oracle, ∃ rest, ((run o).1.trace.map ekind) ++ rest = stepOrderFull) ∧
    (run okOracle).1.trace.map ekind = stepOrderFull := by
  constructor
  · intro o
    rcases run_master o with ⟨-, ht, -, -⟩ | ⟨j, e, hj, -, -, ht, -, -⟩
    · exact ⟨[], by rw [ht]; simp [fullTraceOf, stepOrderFull, ekind]⟩
    · refine ⟨((fullTraceOf o).drop (j + 1)).map ekind, ?_⟩
      rw [ht, ← List.map_append, List.take_append_drop]
      simp [fullTraceOf, stepOrderFull, ekind]
  · rfl

/-- Claim C3: the notebook's code is straight-line — it contains no
conditional branch and no loop — and in every run no SDK call event is ever
repeated in the trace (so no call, failing or not, is re-attempted). -/
theorem C3_straight_line :
    branchFree notebook = true ∧ ∀ o : Oracle, ((run o).1.trace).Nodup := by
  refine ⟨rfl, ?_⟩
  intro o
  rcases run_master o with ⟨-, ht, -, -⟩ | ⟨j, e, -, -, -, ht, -, -⟩ <;> rw [ht]
  · exact fullTraceOf_nodup o
  · exact List.Nodup.sublist (List.take_sublist _ _) (fullTraceOf_nodup o)

/-- Claim C4: the notebook defines no exception handler, and when the j-th SDK
call raises an exception, that exception propagates unchanged as the run's
result and no further call executes (exactly j+1 calls are made). -/
theorem C4_exceptions_propagate :
    handlerFree notebook = true ∧
    ∀ (o : Oracle) (j e : Nat), j < 8 → o j = .raise e →
      (∀ i, i < j → ∃ v, o i = .ok v) →
      (run o).2 = some (.raised e) ∧ (run o).1.calls = j + 1 := by
  refine ⟨rfl, ?_⟩
  intro o j e hj hraise hok
  rcases run_master o with ⟨hall, -, -, -⟩ | ⟨j2, e2, hj2, hraise2, hok2, -, hc, hr⟩
  · obtain ⟨v, hv⟩ := hall j hj
    rw [hraise] at hv
    exact absurd hv (by simp)
  · have hjj : j = j2 := by
      by_contra hne
      rcases Nat.lt_or_ge j j2 with hlt | hge
      · obtain ⟨v, hv⟩ := hok2 j hlt
        rw [hraise] at hv
        exact absurd hv (by simp)
      · have hlt2 : j2 < j := by omega
        obtain ⟨v, hv⟩ := hok j2 hlt2
        rw [hraise2] at hv
        exact absurd hv (by simp)
    subst hjj
    rw [hraise] at hraise2
    injection hraise2 with he
    subst he
    exact ⟨hr, hc⟩

theorem C4_witness :
    (run raiseAt2).2 = some (.raised 7) ∧ (run raiseAt2).1.calls = 3 :=
  C4_exceptions_propagate.2 raiseAt2 2 7 (by decide) rfl
    (fun i hi => ⟨.handle i, by interval_cases i <;> rfl⟩)

/-- Claim C5: the dataset upload is the unique upload call, passing local
directory path "data" and key prefix "data/DEMO-mnist"; its returned storage
location (the value bound to `inputs`) is exactly what the later fit call
receives as its training input. -/
theorem C5_upload_call :
    (∀ (o : Oracle) (s p k : PyVal), Event.uploadData s p k ∈ (run o).1.trace →
        p = .str "data" ∧ k = .str "data/DEMO-mnist") ∧
    ∀ (o : Oracle) (v4 : PyVal), o 4 = .ok v4 →
      ∀ est inp, Event.fit est inp ∈ (run o).1.trace → inp = v4 := by
  constructor
  · intro o s p k hmem
    have hfull := trace_mem_full o _ hmem
    simp only [fullTraceOf, List.mem_cons, List.not_mem_nil, or_false] at hfull
    rcases hfull with h1 | h1 | h1 | h1 | h1 | h1 | h1 | h1 <;> simp_all
  · intro o v4 h4 est inp hmem
    have hfull := trace_mem_full o _ hmem
    simp only [fullTraceOf, List.mem_cons, List.not_mem_nil, or_false] at hfull
    rcases hfull with h1 | h1 | h1 | h1 | h1 | h1 | h1 | h1 <;> simp_all [okVal]

theorem C5_witness :
    (PyVal.str "data" = PyVal.str "data" ∧
      PyVal.str "data/DEMO-mnist" = PyVal.str "data/DEMO-mnist") ∧
    PyVal.handle 4 = PyVal.handle 4 :=
  ⟨C5_upload_call.1 okOracle (.handle 0) (.str "data") (.str "data/DEMO-mnist")
      (by rw [okOracle_trace]; simp),
   C5_upload_call.2 okOracle (.handle 4) rfl (.handle 5) (.handle 4)
      (by rw [okOracle_trace]; simp)⟩

/-- Claim C6: the entry-point script name supplied to the training-job
descriptor (the first argument of the estimator constructor, hence the first
component of the recorded constructor event) is exactly "entry.py". -/
theorem C6_entry_point :
    ∀ (o : Oracle) (ep r c t h : PyVal),
      Event.mxnetCtor ep r c t h ∈ (run o).1.trace → ep = .str "entry.py" := by
  intro o ep r c t h hmem
  have hfull := trace_mem_full o _ hmem
  simp only [fullTraceOf, List.mem_cons, List.not_mem_nil, or_false] at hfull
  rcases hfull with h1 | h1 | h1 | h1 | h1 | h1 | h1 | h1 <;> simp_all

theorem C6_witness : PyVal.str "entry.py" = PyVal.str "entry.py" :=
  C6_entry_point okOracle (.str "entry.py") (.handle 1) (.int 1)
    (.str "ml.c4.xlarge") (.dict hyperparametersLit)
    (by rw [okOracle_trace]; simp)

/-- Claim C7: every dataset-fetch call in any run caches either the training
split (train=True) at "./data/train" or the test split (train=False) at
"./data/test"; a fully successful run performs both, so these are the only
local dataset-caching paths the notebook uses. -/
theorem C7_dataset_paths :
    (∀ (o : Oracle) (p t : PyVal), Event.mnistFetch p t ∈ (run o).1.trace →
        (p = .str "./data/train" ∧ t = .bool true) ∨
        (p = .str "./data/test" ∧ t = .bool false)) ∧
    Event.mnistFetch (.str "./data/train") (.bool true) ∈ (run okOracle).1.trace ∧
    Event.mnistFetch (.str "./data/test") (.bool false) ∈ (run okOracle).1.trace := by
  refine ⟨?_, by rw [okOracle_trace]; simp, by rw [okOracle_trace]; simp⟩
  intro o p t hmem
  have hfull := trace_mem_full o _ hmem
  simp only [fullTraceOf, List.mem_cons, List.not_mem_nil, or_false] at hfull
  rcases hfull with h1 | h1 | h1 | h1 | h1 | h1 | h1 | h1 <;> simp_all

theorem C7_witness :
    (PyVal.str "./data/train" = PyVal.str "./data/train" ∧
        PyVal.bool true = PyVal.bool true) ∨
    (PyVal.str "./data/train" = PyVal.str "./data/test" ∧
        PyVal.bool true = PyVal.bool false) :=
  C7_dataset_paths.1 okOracle (.str "./data/train") (.bool true)
    (by rw [okOracle_trace]; simp)

/-- Claim C8: the hyperparameter configuration is a flat mapping of scalar
values — every value is an integer or a floating-point number, none is itself
a mapping, list or other structured value — and it is this mapping that every
run passes to the estimator constructor. -/
theorem C8_flat_scalar_hyperparameters :
    (hyperparametersLit.all fun p => isScalar p.2) = true ∧
    ∀ (o : Oracle) (ep r c t h : PyVal),
      Event.mxnetCtor ep r c t h ∈ (run o).1.trace →
      h = .dict hyperparametersLit := by
  refine ⟨rfl, ?_⟩
  intro o ep r c t h hmem
  have hfull := trace_mem_full o _ hmem
  simp only [fullTraceOf, List.mem_cons, List.not_mem_nil, or_false] at hfull
  rcases hfull with h1 | h1 | h1 | h1 | h1 | h1 | h1 | h1 <;> simp_all

theorem C8_witness :
    PyVal.dict hyperparametersLit = PyVal.dict hyperparametersLit :=
  C8_flat_scalar_hyperparameters.2 okOracle (.str "entry.py") (.handle 1)
    (.int 1) (.str "ml.c4.xlarge") (.dict hyperparametersLit)
    (by rw [okOracle_trace]; simp)

/-- Claim C9: the argument passed to fit is exactly the value the upload call
returned, and both fit and deploy act on exactly the value the estimator
constructor returned — the deployed model is the one this run trained, with no
other data source or model handle in between. -/
theorem C9_dataflow :
    ∀ (o : Oracle) (v4 v5 : PyVal), o 4 = .ok v4 → o 5 = .ok v5 →
      (∀ est inp, Event.fit est inp ∈ (run o).1.trace → est = v5 ∧ inp = v4) ∧
      (∀ est n t, Event.deploy est n t ∈ (run o).1.trace → est = v5) := by
  intro o v4 v5 h4 h5
  constructor
  · intro est inp hmem
    have hfull := trace_mem_full o _ hmem
    simp only [fullTraceOf, List.mem_cons, List.not_mem_nil, or_false] at hfull
    rcases hfull with h1 | h1 | h1 | h1 | h1 | h1 | h1 | h1 <;> simp_all [okVal]
  · intro est n t hmem
    have hfull := trace_mem_full o _ hmem
    simp only [fullTraceOf, List.mem_cons, List.not_mem_nil, or_false] at hfull
    rcases hfull with h1 | h1 | h1 | h1 | h1 | h1 | h1 | h1 <;> simp_all [okVal]

theorem C9_witness :
    PyVal.handle 5 = PyVal.handle 5 ∧ PyVal.handle 4 = PyVal.handle 4 :=
  (C9_dataflow okOracle (.handle 4) (.handle 5) rfl rfl).1 (.handle 5)
    (.handle 4) (by rw [okOracle_trace]; simp)

/-- Claim C10: every estimator-constructor call requests exactly one training
instance of type "ml.c4.xlarge", and every deploy call requests exactly one
serving instance of type "ml.m4.xlarge". -/
theorem C10_single_instance :
    (∀ (o : Oracle) (ep r c t h : PyVal),
        Event.mxnetCtor ep r c t h ∈ (run o).1.trace →
        c = .int 1 ∧ t = .str "ml.c4.xlarge") ∧
    ∀ (o : Oracle) (est n t : PyVal),
      Event.deploy est n t ∈ (run o).1.trace →
      n = .int 1 ∧ t = .str "ml.m4.xlarge" := by
  constructor
  · intro o ep r c t h hmem
    have hfull := trace_mem_full o _ hmem
    simp only [fullTraceOf, List.mem_cons, List.not_mem_nil, or_false] at hfull
    rcases hfull with h1 | h1 | h1 | h1 | h1 | h1 | h1 | h1 <;> simp_all
  · intro o est n t hmem
    have hfull := trace_mem_full o _ hmem
    simp only [fullTraceOf, List.mem_cons, List.not_mem_nil, or_false] at hfull
    rcases hfull with h1 | h1 | h1 | h1 | h1 | h1 | h1 | h1 <;> simp_all

theorem C10_witness :
    (PyVal.int 1 = PyVal.int 1 ∧ PyVal.str "ml.c4.xlarge" = PyVal.str "ml.c4.xlarge") ∧
    (PyVal.int 1 = PyVal.int 1 ∧ PyVal.str "ml.m4.xlarge" = PyVal.str "ml.m4.xlarge") :=
  ⟨C10_single_instance.1 okOracle (.str "entry.py") (.handle 1) (.int 1)
      (.str "ml.c4.xlarge") (.dict hyperparametersLit)
      (by rw [okOracle_trace]; simp),
   C10_single_instance.2 okOracle (.handle 5) (.int 1) (.str "ml.m4.xlarge")
      (by rw [okOracle_trace]; simp)⟩
